import Mathlib

/-!
Shallow embedding of the request validation and unmarshalling pipeline of
openapi-core, translated from
src/openapi_core/validation/request/validators.py and
src/openapi_core/unmarshalling/request/unmarshallers.py.

Components that live outside those two files (the style/cast/validate
pipeline of BaseValidator, the media-type conversion, the security provider
factory, the path finder, the exception hierarchy and the result dataclass)
are either abstracted as explicit function arguments or modelled from the
specification; each such definition says so in its doc comment.
-/

/-- Parameter location: the `in` field of a parameter descriptor. -/
inductive ParamLocation where
  | query
  | header
  | path
  | cookie
deriving DecidableEq

/-- Resolved values produced by the cast/validate/unmarshal pipeline. -/
inductive Value where
  | vStr (s : String)
  | vInt (n : Nat)
deriving DecidableEq

/-- A parameter descriptor, the relevant keys of the parameter Spec dict:
name, in, required (default false), deprecated (default false) and an opaque
schema tag consumed by the abstract per-parameter pipeline. -/
structure Param where
  name : String
  location : ParamLocation
  required : Bool := false
  deprecated : Bool := false
  schema : String := ""
deriving DecidableEq

/-- Association-list lookup; embeds Python dict lookup by key. -/
def alookup {α : Type} (n : String) : List (String × α) → Option α
  | [] => none
  | (k, v) :: rest => if k = n then some v else alookup n rest

/-- RequestParameters: four name-to-raw-value mappings (datatypes.py is not
under src/; the shape is from the specification, section 3). -/
structure RequestParameters where
  query : List (String × String) := []
  header : List (String × String) := []
  path : List (String × String) := []
  cookie : List (String × String) := []
deriving DecidableEq

/-- `parameters[param_location]` of RequestParameters. -/
def RequestParameters.get (ps : RequestParameters) : ParamLocation → List (String × String)
  | .query => ps.query
  | .header => ps.header
  | .path => ps.path
  | .cookie => ps.cookie

/-- ValidatedParameters (class Parameters): four name-to-resolved-value
mappings, built incrementally. -/
structure Parameters where
  query : List (String × Value) := []
  header : List (String × Value) := []
  path : List (String × Value) := []
  cookie : List (String × Value) := []
deriving DecidableEq

/-- `getattr(validated, param_location)`. -/
def Parameters.get (ps : Parameters) : ParamLocation → List (String × Value)
  | .query => ps.query
  | .header => ps.header
  | .path => ps.path
  | .cookie => ps.cookie

/-- `location[param_name] = value`: dict insertion, keeping insertion order.
The (name, location) identity is processed at most once per resolution, so
the key being inserted is never already present. -/
def Parameters.insert (ps : Parameters) (l : ParamLocation) (n : String) (v : Value) : Parameters :=
  match l with
  | .query => { ps with query := ps.query ++ [(n, v)] }
  | .header => { ps with header := ps.header ++ [(n, v)] }
  | .path => { ps with path := ps.path ++ [(n, v)] }
  | .cookie => { ps with cookie := ps.cookie ++ [(n, v)] }

/-- Errors surfaced by the request pipeline (kinds of the exception classes
raised in src; the exception hierarchy itself lives in
openapi_core/validation/request/exceptions.py, outside src/, and is modelled
from the specification, section 7). -/
inductive OpenAPIError where
  | pathError
  | securityError (schemes : List (List String))
  | missingRequiredParameter (name : String) (location : ParamLocation)
  | invalidParameter (name : String) (location : ParamLocation)
  | missingRequestBody
  | missingRequiredRequestBody
  | invalidRequestBody
deriving DecidableEq

/-- Outcome of `_get_parameter` for one descriptor: MissingParameter,
MissingRequiredParameter, a wrapped InvalidParameter, or the resolved value. -/
inductive ParamOutcome where
  | missing
  | missingRequired
  | invalid
  | ok (v : Value)
deriving DecidableEq

/-- `BaseRequestValidator._get_parameter` (validators.py lines 179-199).
The argument `pipe` abstracts `_get_param_or_header`, the
deserialize/cast/validate(/unmarshal) pipeline applied to a raw value that
is present (BaseValidator is not under src/). Modelled from the spec: that
pipeline raises KeyError exactly when the name is absent from
`parameters[param_location]`; on absence the descriptor decides between
MissingRequiredParameter and MissingParameter via its required flag, and
any pipeline failure is wrapped into a per-parameter InvalidParameter by
the ValidationErrorWrapper decorator. The deprecated flag only emits a
warning and does not affect the outcome. -/
def getParameter (pipe : Param → String → Except Unit Value)
    (parameters : RequestParameters) (p : Param) : ParamOutcome :=
  match alookup p.name (parameters.get p.location) with
  | none => if p.required then .missingRequired else .missing
  | some raw =>
    match pipe p raw with
    | .ok v => .ok v
    | .error _ => .invalid

/-- The pair returned by parameter resolution: the incrementally built
ValidatedParameters and the collected error list (`_get_parameters` raises
ParametersError carrying both exactly when the error list is nonempty). -/
structure ParametersResolution where
  validated : Parameters
  errors : List OpenAPIError
deriving DecidableEq

/-- The loop of `BaseRequestValidator._get_parameters` (validators.py lines
145-167): iterate descriptors, skip identities already seen, then dispatch
on the outcome of `_get_parameter`; `seen.add` happens before the attempt,
so every processed identity is recorded whatever the outcome. -/
def getParametersGo (pipe : Param → String → Except Unit Value)
    (reqParams : RequestParameters) :
    List Param → List (String × ParamLocation) → Parameters → List OpenAPIError →
      ParametersResolution
  | [], _, validated, errors => ⟨validated, errors⟩
  | p :: rest, seen, validated, errors =>
    if (p.name, p.location) ∈ seen then
      getParametersGo pipe reqParams rest seen validated errors
    else
      match getParameter pipe reqParams p with
      | .missing =>
        getParametersGo pipe reqParams rest (seen ++ [(p.name, p.location)]) validated errors
      | .missingRequired =>
        getParametersGo pipe reqParams rest (seen ++ [(p.name, p.location)]) validated
          (errors ++ [.missingRequiredParameter p.name p.location])
      | .invalid =>
        getParametersGo pipe reqParams rest (seen ++ [(p.name, p.location)]) validated
          (errors ++ [.invalidParameter p.name p.location])
      | .ok v =>
        getParametersGo pipe reqParams rest (seen ++ [(p.name, p.location)])
          (validated.insert p.location p.name v) errors

/-- `BaseRequestValidator._get_parameters` (validators.py lines 136-171).
Takes the two descriptor lists read with the parameters key (default
empty) from the operation and the path subtrees and chains them operation-first
(`chainiters(operation_params, path_params)`). -/
def getParameters (pipe : Param → String → Except Unit Value)
    (reqParams : RequestParameters) (operationParams pathParams : List Param) :
    ParametersResolution :=
  getParametersGo pipe reqParams (operationParams ++ pathParams) [] {} []

/-- The first descriptor carrying a given (name, location) identity: by the
dedup rule of `_get_parameters` this is the descriptor that governs the
identity. -/
def governing (n : String) (l : ParamLocation) : List Param → Option Param
  | [] => none
  | p :: rest => if p.name = n ∧ p.location = l then some p else governing n l rest

/-- Whether an error is tagged with the given parameter name and location. -/
def isParamErrorFor (n : String) (l : ParamLocation) : OpenAPIError → Bool
  | .missingRequiredParameter m k => decide (m = n ∧ k = l)
  | .invalidParameter m k => decide (m = n ∧ k = l)
  | _ => false

/-- The sub-list of errors tagged with the given parameter identity. -/
def errorsFor (n : String) (l : ParamLocation) : List OpenAPIError → List OpenAPIError
  | [] => []
  | e :: rest =>
    if isParamErrorFor n l e then e :: errorsFor n l rest else errorsFor n l rest

/-- Errors contributed to the list by one processed descriptor outcome. -/
def outcomeErrors (n : String) (l : ParamLocation) : ParamOutcome → List OpenAPIError
  | .missingRequired => [.missingRequiredParameter n l]
  | .invalid => [.invalidParameter n l]
  | _ => []

/-- The validated entry contributed by one processed descriptor outcome. -/
def outcomeValue : ParamOutcome → Option Value
  | .ok v => some v
  | _ => none

/-- The `requestBody` Spec subtree: the required flag (default false) read
by `_get_body_value`; content negotiation is abstracted by the `convert`
argument of `getBody`. -/
structure RequestBodySpec where
  required : Bool := false
deriving DecidableEq

/-- An Operation subtree: the keys read by the request pipeline. `security`
is an ordered list of alternatives, each an ordered list of scheme names
(`list(security_requirement.keys())`); `none` means the key is absent. -/
structure Operation where
  parameters : List Param := []
  security : Option (List (List String)) := none
  requestBody : Option RequestBodySpec := none
deriving DecidableEq

/-- A PathItem subtree: its method-independent parameter declarations. -/
structure PathItem where
  parameters : List Param := []
deriving DecidableEq

/-- One path template entry of the contract: a template made of literal and
variable segments, its PathItem, and its operations keyed by method. -/
inductive TemplateSeg where
  | lit (s : String)
  | var (s : String)
deriving DecidableEq

/-- Operations of one path template, keyed by lowercase HTTP method. -/
structure PathSpec where
  pathItem : PathItem := {}
  operations : List (String × Operation) := []
deriving DecidableEq

/-- The contract document: the parts the request pipeline reads. `paths`
and `webhooks` are the two declaration tables of the two path-resolution
variants; `security` is the document-level requirement and
`securitySchemes` the `components#securitySchemes` table mapping scheme
names to an opaque scheme descriptor consumed by the provider factory. -/
structure SpecDoc where
  security : Option (List (List String)) := none
  securitySchemes : List (String × String) := []
  paths : List (List TemplateSeg × PathSpec) := []
  webhooks : List (List TemplateSeg × PathSpec) := []
deriving DecidableEq

/-- `BaseRequestValidator._get_security_value` (validators.py lines
230-238): an unknown scheme name is tolerated and yields a None credential;
otherwise the provider built from the scheme descriptor runs on the request
parameters. `providerOf` abstracts `security_provider_factory.create`
followed by the provider call; its error models SecurityProviderError. -/
def getSecurityValue (providerOf : String → RequestParameters → Except Unit Value)
    (doc : SpecDoc) (params : RequestParameters) (name : String) :
    Except Unit (Option Value) :=
  match alookup name doc.securitySchemes with
  | none => .ok none
  | some scheme =>
    match providerOf scheme params with
    | .ok v => .ok (some v)
    | .error e => .error e

/-- The dict comprehension of `_get_security` (validators.py lines
219-224) for one alternative: extract a credential for every scheme name in
order; the first SecurityProviderError abandons the whole alternative. -/
def trySecurityRequirement (providerOf : String → RequestParameters → Except Unit Value)
    (doc : SpecDoc) (params : RequestParameters) :
    List String → Option (List (String × Option Value))
  | [] => some []
  | n :: rest =>
    match getSecurityValue providerOf doc params n with
    | .error _ => none
    | .ok c =>
      match trySecurityRequirement providerOf doc params rest with
      | none => none
      | some creds => some ((n, c) :: creds)

/-- The alternatives loop of `_get_security` (validators.py lines 214-228):
each attempted scheme-name combination is appended to `schemes` before the
attempt; the first fully satisfied alternative returns immediately, and
exhaustion raises SecurityNotFound carrying every attempted combination. -/
def getSecurityGo (providerOf : String → RequestParameters → Except Unit Value)
    (doc : SpecDoc) (params : RequestParameters) :
    List (List String) → List (List String) →
      Except (List (List String)) (List (String × Option Value))
  | [], attempted => .error attempted
  | alt :: rest, attempted =>
    match trySecurityRequirement providerOf doc params alt with
    | some creds => .ok creds
    | none => getSecurityGo providerOf doc params rest (attempted ++ [alt])

/-- The effective security requirement (validators.py lines 205-209): the
document-level declaration, overridden by the operation-level one when the
operation declares the `security` key at all. -/
def effectiveSecurity (operation : Operation) (doc : SpecDoc) :
    Option (List (List String)) :=
  match operation.security with
  | some s => some s
  | none => doc.security

/-- `BaseRequestValidator._get_security` (validators.py lines 201-228).
A missing or falsy (empty) effective requirement returns an empty mapping
(`if not security: return {}`); otherwise the alternatives loop runs. The
error payload is the SecurityNotFound list of attempted combinations. -/
def getSecurity (providerOf : String → RequestParameters → Except Unit Value)
    (doc : SpecDoc) (params : RequestParameters) (operation : Operation) :
    Except (List (List String)) (List (String × Option Value)) :=
  match effectiveSecurity operation doc with
  | none => .ok []
  | some [] => .ok []
  | some (alt :: rest) => getSecurityGo providerOf doc params (alt :: rest) []

/-- Outcome of `_get_body` (validators.py lines 240-259): None when the
operation declares no requestBody, the resolved value, or one of the raised
body exceptions. -/
inductive BodyOutcome where
  | noBodyDecl
  | okBody (v : Value)
  | missingBody
  | missingRequiredBody
  | invalidBody
deriving DecidableEq

/-- `BaseRequestValidator._get_body` with `_get_body_value` (validators.py
lines 240-259): no declared requestBody returns None untouched; an empty or
absent raw body raises MissingRequiredRequestBody or MissingRequestBody by
the required flag; otherwise `convert` abstracts
`_convert_content_schema_value` (content negotiation, deserialization,
cast and validate/unmarshal, outside src/), whose failures the
ValidationErrorWrapper wraps into a single body validation error. -/
def getBody (convert : RequestBodySpec → String → String → Except Unit Value)
    (body : Option String) (mimetype : String) (operation : Operation) : BodyOutcome :=
  match operation.requestBody with
  | none => .noBodyDecl
  | some rb =>
    match body with
    | none => if rb.required then .missingRequiredBody else .missingBody
    | some raw =>
      if raw = "" then
        if rb.required then .missingRequiredBody else .missingBody
      else
        match convert rb raw mimetype with
        | .ok v => .okBody v
        | .error _ => .invalidBody

/-- The body stage of `BaseRequestValidator._iter_errors` and
`_iter_body_errors` (validators.py lines 107-110 and 112-118): every body
exception raised by `_get_body` is a RequestBodyValidationError (modelled
from the spec: the hierarchy in exceptions.py is outside src/, and the
except-clause ordering of `_unmarshal` relies on MissingRequestBody being a
RequestBodyError), and the validator yields every one of them since it has
no separate MissingRequestBody handler. -/
def bodyErrorsValidator : BodyOutcome → List OpenAPIError
  | .missingBody => [.missingRequestBody]
  | .missingRequiredBody => [.missingRequiredRequestBody]
  | .invalidBody => [.invalidRequestBody]
  | _ => []

/-- The body stage of `BaseRequestUnmarshaller._unmarshal` and
`_unmarshal_body` (unmarshallers.py lines 129-138 and 151-160): a
MissingRequestBody is caught first and treated as no body and no error;
any other body error yields no body and one error. -/
def unmarshalBodyOutcome : BodyOutcome → Option Value × List OpenAPIError
  | .okBody v => (some v, [])
  | .noBodyDecl => (none, [])
  | .missingBody => (none, [])
  | .missingRequiredBody => (none, [.missingRequiredRequestBody])
  | .invalidBody => (none, [.invalidRequestBody])

/-- RequestUnmarshalResult (unmarshalling/request/datatypes.py is not under
src/; modelled from the spec, section 3): errors plus three optional
fields whose absence is distinct from a present falsy value. -/
structure UnmarshalResult where
  errors : List OpenAPIError := []
  body : Option Value := none
  parameters : Option Parameters := none
  security : Option (List (String × Option Value)) := none
deriving DecidableEq

/-- `BaseRequestUnmarshaller._unmarshal` (unmarshallers.py lines 113-146):
a security failure is terminal and returns only that error; otherwise the
parameter stage keeps the partially built parameters carried by
ParametersError, the body stage runs independently, and the errors are
concatenated parameters-first. -/
def unmarshalStage (pipe : Param → String → Except Unit Value)
    (convert : RequestBodySpec → String → String → Except Unit Value)
    (providerOf : String → RequestParameters → Except Unit Value)
    (doc : SpecDoc) (req : RequestParameters) (body : Option String) (mimetype : String)
    (operation : Operation) (pathItem : PathItem) : UnmarshalResult :=
  match getSecurity providerOf doc req operation with
  | .error schemes => { errors := [.securityError schemes] }
  | .ok sec =>
    let pres := getParameters pipe req operation.parameters pathItem.parameters
    let b := unmarshalBodyOutcome (getBody convert body mimetype operation)
    { errors := pres.errors ++ b.2
      body := b.1
      parameters := some pres.validated
      security := some sec }

/-- `BaseRequestValidator._iter_errors` (validators.py lines 92-110): a
security failure yields that single error and stops; otherwise the
parameter errors are yielded, then the body errors. -/
def iterErrorsStage (pipe : Param → String → Except Unit Value)
    (convert : RequestBodySpec → String → String → Except Unit Value)
    (providerOf : String → RequestParameters → Except Unit Value)
    (doc : SpecDoc) (req : RequestParameters) (body : Option String) (mimetype : String)
    (operation : Operation) (pathItem : PathItem) : List OpenAPIError :=
  match getSecurity providerOf doc req operation with
  | .error schemes => [.securityError schemes]
  | .ok _ =>
    (getParameters pipe req operation.parameters pathItem.parameters).errors
      ++ bodyErrorsValidator (getBody convert body mimetype operation)

/-- `BaseRequestValidator._iter_parameters_errors` (validators.py lines
120-126): it calls `self._get_parameters(request.parameters, path,
operation)`, passing the PathItem in the operation slot and the Operation
in the path slot, so the path-declared descriptors are chained first. -/
def iterParametersErrorsStage (pipe : Param → String → Except Unit Value)
    (req : RequestParameters) (operation : Operation) (pathItem : PathItem) :
    List OpenAPIError :=
  (getParameters pipe req pathItem.parameters operation.parameters).errors

/-- `BaseRequestUnmarshaller._unmarshal_parameters` (unmarshallers.py lines
167-181): it calls `self._get_parameters(request.parameters, path,
operation)` with the same swapped order, and keeps the partially built
parameters on error. -/
def unmarshalParametersStage (pipe : Param → String → Except Unit Value)
    (req : RequestParameters) (operation : Operation) (pathItem : PathItem) :
    UnmarshalResult :=
  let pres := getParameters pipe req pathItem.parameters operation.parameters
  { errors := pres.errors
    parameters := some pres.validated }

/-- The two path-resolution variants (spec, section 4.1): server-relative
resolution against the contract path declarations, and webhook-relative
resolution against its webhook declarations. -/
inductive PathFinderKind where
  | apiCall
  | webhook
deriving DecidableEq

/-- Modelled from the spec (section 4.1): match one template against the
slash-separated segments of a request URL, a variable segment capturing the
corresponding URL segment. -/
def matchSegments : List TemplateSeg → List String → Option (List (String × String))
  | [], [] => some []
  | .lit s :: ts, u :: us => if s = u then matchSegments ts us else none
  | .var n :: ts, u :: us =>
    match matchSegments ts us with
    | some vs => some ((n, u) :: vs)
    | none => none
  | _, _ => none

/-- The result of `_find_path`: the matched PathItem, the Operation for the
request method, and the extracted path variables. -/
structure PathFindResult where
  pathItem : PathItem
  operation : Operation
  pathVars : List (String × String)
deriving DecidableEq

/-- Modelled from the spec (section 4.1): the Path Finder tries the
declared templates in declaration order (a deterministic total order, as
sections 4.1 and 9 permit); a template match with no Operation for the
method is the no-operation variant of the same PathError. -/
def findInTable (table : List (List TemplateSeg × PathSpec)) (method : String)
    (url : List String) : Except Unit PathFindResult :=
  match table with
  | [] => .error ()
  | (template, ps) :: rest =>
    match matchSegments template url with
    | some vars =>
      match alookup method ps.operations with
      | some op => .ok ⟨ps.pathItem, op, vars⟩
      | none => .error ()
    | none => findInTable rest method url

/-- A request: method, URL (as its slash-separated path segments), body,
mimetype and the four parameter mappings. -/
structure Request where
  method : String := ""
  url : List String := []
  mimetype : String := ""
  body : Option String := none
  parameters : RequestParameters := {}
deriving DecidableEq

/-- `BaseValidator._find_path` dispatched by the `path_finder_cls` class
attribute (modelled from the spec, section 4.1): the server-relative finder
matches against the contract path declarations, the webhook-relative one
against its webhook declarations. -/
def findPath (kind : PathFinderKind) (doc : SpecDoc) (req : Request) :
    Except Unit PathFindResult :=
  match kind with
  | .apiCall => findInTable doc.paths req.method req.url
  | .webhook => findInTable doc.webhooks req.method req.url

/-- `request.parameters.path = request.parameters.path or
path_result.variables`: the path variables are cached on the request unless
the caller already supplied a truthy path mapping. -/
def updateRequestPath (req : Request) (vars : List (String × String)) : Request :=
  if req.parameters.path = [] then
    { req with parameters := { req.parameters with path := vars } }
  else req

/-- `APICallRequestValidator.iter_errors` (validators.py lines 317-330): a
PathError is yielded alone; otherwise the path variables are cached and the
full stage sequence runs. -/
def apiCallIterErrors (kind : PathFinderKind)
    (pipe : Param → String → Except Unit Value)
    (convert : RequestBodySpec → String → String → Except Unit Value)
    (providerOf : String → RequestParameters → Except Unit Value)
    (doc : SpecDoc) (req : Request) : List OpenAPIError :=
  match findPath kind doc req with
  | .error _ => [.pathError]
  | .ok r =>
    let req1 := updateRequestPath req r.pathVars
    iterErrorsStage pipe convert providerOf doc req1.parameters req1.body req1.mimetype
      r.operation r.pathItem

/-- `BaseAPICallRequestValidator.validate` (validators.py lines 266-268):
raise the first yielded error, succeed silently when there is none. -/
def apiCallValidate (kind : PathFinderKind)
    (pipe : Param → String → Except Unit Value)
    (convert : RequestBodySpec → String → String → Except Unit Value)
    (providerOf : String → RequestParameters → Except Unit Value)
    (doc : SpecDoc) (req : Request) : Option OpenAPIError :=
  (apiCallIterErrors kind pipe convert providerOf doc req).head?

/-- `APICallRequestUnmarshaller.unmarshal` (unmarshallers.py lines
208-219): a PathError gives a result holding only that error; otherwise
the path variables are cached and `_unmarshal` runs. -/
def apiCallUnmarshal (kind : PathFinderKind)
    (pipe : Param → String → Except Unit Value)
    (convert : RequestBodySpec → String → String → Except Unit Value)
    (providerOf : String → RequestParameters → Except Unit Value)
    (doc : SpecDoc) (req : Request) : UnmarshalResult :=
  match findPath kind doc req with
  | .error _ => { errors := [.pathError] }
  | .ok r =>
    let req1 := updateRequestPath req r.pathVars
    unmarshalStage pipe convert providerOf doc req1.parameters req1.body req1.mimetype
      r.operation r.pathItem

/-- `APICallRequestParametersValidator.iter_errors` (validators.py lines
291-303): path resolution, variable caching, then
`_iter_parameters_errors`. -/
def apiCallParametersIterErrors (kind : PathFinderKind)
    (pipe : Param → String → Except Unit Value)
    (doc : SpecDoc) (req : Request) : List OpenAPIError :=
  match findPath kind doc req with
  | .error _ => [.pathError]
  | .ok r =>
    let req1 := updateRequestPath req r.pathVars
    iterParametersErrorsStage pipe req1.parameters r.operation r.pathItem

/-- `APICallRequestParametersUnmarshaller.unmarshal` (unmarshallers.py
lines 239-253): path resolution, variable caching, then
`_unmarshal_parameters`. -/
def apiCallParametersUnmarshal (kind : PathFinderKind)
    (pipe : Param → String → Except Unit Value)
    (doc : SpecDoc) (req : Request) : UnmarshalResult :=
  match findPath kind doc req with
  | .error _ => { errors := [.pathError] }
  | .ok r =>
    let req1 := updateRequestPath req r.pathVars
    unmarshalParametersStage pipe req1.parameters r.operation r.pathItem

/-- Modelled from the spec (section 4.1): the default `path_finder_cls` of
BaseAPICallValidator (validation/validators.py, not under src/) is the
server-relative APICallPathFinder. -/
def baseAPICallPathFinder : PathFinderKind := .apiCall

/-- Modelled from the spec (section 4.1): the default `path_finder_cls` of
BaseWebhookValidator is the webhook-relative WebhookPathFinder. -/
def baseWebhookPathFinder : PathFinderKind := .webhook

/-- `APICallRequestValidator` and the other API-call validator bases
declare no `path_finder_cls` of their own, inheriting the server-relative
default. -/
def apiCallRequestValidatorPathFinder : PathFinderKind := baseAPICallPathFinder

/-- `V30RequestValidator` (validators.py lines 398-399): no override. -/
def v30RequestValidatorPathFinder : PathFinderKind := apiCallRequestValidatorPathFinder

/-- `V30RequestParametersValidator` (validators.py lines 390-391). -/
def v30RequestParametersValidatorPathFinder : PathFinderKind :=
  apiCallRequestValidatorPathFinder

/-- `V30RequestBodyValidator` (validators.py lines 386-387). -/
def v30RequestBodyValidatorPathFinder : PathFinderKind := apiCallRequestValidatorPathFinder

/-- `V30RequestSecurityValidator` (validators.py lines 394-395). -/
def v30RequestSecurityValidatorPathFinder : PathFinderKind :=
  apiCallRequestValidatorPathFinder

/-- `V31RequestValidator` (validators.py lines 414-416): it sets
`path_finder_cls = WebhookPathFinder` although it extends
APICallRequestValidator. -/
def v31RequestValidatorPathFinder : PathFinderKind := PathFinderKind.webhook

/-- `V31RequestParametersValidator` (validators.py lines 406-407): no
override. -/
def v31RequestParametersValidatorPathFinder : PathFinderKind :=
  apiCallRequestValidatorPathFinder

/-- `V31RequestBodyValidator` (validators.py lines 402-403): no override. -/
def v31RequestBodyValidatorPathFinder : PathFinderKind := apiCallRequestValidatorPathFinder

/-- `V31RequestSecurityValidator` (validators.py lines 410-411): no
override. -/
def v31RequestSecurityValidatorPathFinder : PathFinderKind :=
  apiCallRequestValidatorPathFinder

/-- `V30RequestUnmarshaller` (unmarshallers.py lines 359-360): its MRO
takes `path_finder_cls` from V30RequestValidator. -/
def v30RequestUnmarshallerPathFinder : PathFinderKind := v30RequestValidatorPathFinder

/-- `V31RequestUnmarshaller` (unmarshallers.py lines 381-382): its MRO
takes `path_finder_cls` from V31RequestValidator. -/
def v31RequestUnmarshallerPathFinder : PathFinderKind := v31RequestValidatorPathFinder

/-- `V31WebhookRequestValidator` (validators.py lines 434-436). -/
def v31WebhookRequestValidatorPathFinder : PathFinderKind := PathFinderKind.webhook

/-- A concrete per-parameter pipeline for the concrete evaluations: an
integer-schema descriptor accepts the listed numerals and rejects any other
raw value; any other schema keeps the raw string. -/
def intTable : List (String × Nat) := [(r"0", 0), (r"1", 1), (r"2", 2), (r"42", 42)]

/-- See `intTable`. -/
def pipeNum : Param → String → Except Unit Value := fun p raw =>
  if p.schema = "integer" then
    match alookup raw intTable with
    | some k => Except.ok (Value.vInt k)
    | none => Except.error ()
  else Except.ok (Value.vStr raw)

/-- Body converter that accepts any raw body as a string value. -/
def convertRaw : RequestBodySpec → String → String → Except Unit Value :=
  fun _ raw _ => Except.ok (Value.vStr raw)

/-- Security provider strategy that always fails extraction. -/
def providerReject : String → RequestParameters → Except Unit Value :=
  fun _ _ => Except.error ()

/-- Security provider keyed by the scheme descriptor: the accepting scheme
returns a token, anything else raises SecurityProviderError. -/
def providerByScheme : String → RequestParameters → Except Unit Value :=
  fun scheme _ =>
    if scheme = "accept" then Except.ok (Value.vStr (r"token"))
    else Except.error ()

/-- An empty contract document. -/
def emptyDoc : SpecDoc := {}

/-- A request with every field defaulted. -/
def plainRequest : Request := {}

/-- Operation-level descriptor of the dedup example: foo in query with an
integer schema. -/
def fooOpParam : Param := { name := "foo", location := .query, schema := "integer" }

/-- Path-level descriptor sharing the identity of `fooOpParam`, with a
string schema. -/
def fooPathParam : Param := { name := "foo", location := .query, schema := "string" }

/-- The operation of the dedup example. -/
def dedupOperation : Operation := { parameters := [fooOpParam] }

/-- The path entry of the dedup example. -/
def dedupPathSpec : PathSpec :=
  { pathItem := { parameters := [fooPathParam] }
    operations := [(r"get", dedupOperation)] }

/-- Contract for the dedup example: GET /pets. -/
def dedupDoc : SpecDoc := { paths := [([TemplateSeg.lit (r"pets")], dedupPathSpec)] }

/-- GET /pets?foo=abc. -/
def dedupRequest : Request :=
  { method := "get"
    url := [r"pets"]
    parameters := { query := [(r"foo", r"abc")] } }

/-- Operation-level descriptor: token in query, required. -/
def tokenOpParam : Param := { name := "token", location := .query, required := true }

/-- Path-level descriptor sharing that identity, not required. -/
def tokenPathParam : Param := { name := "token", location := .query, required := false }

/-- The operation of the required-shadowing example. -/
def requiredShadowOperation : Operation := { parameters := [tokenOpParam] }

/-- The path entry of the required-shadowing example. -/
def requiredShadowPathSpec : PathSpec :=
  { pathItem := { parameters := [tokenPathParam] }
    operations := [(r"get", requiredShadowOperation)] }

/-- Contract for the required-shadowing example: GET /items. -/
def requiredShadowDoc : SpecDoc :=
  { paths := [([TemplateSeg.lit (r"items")], requiredShadowPathSpec)] }

/-- GET /items with no query parameters. -/
def requiredShadowRequest : Request := { method := "get", url := [r"items"] }

/-- An operation declaring an optional request body. -/
def optionalBodyOperation : Operation := { requestBody := some { required := false } }

/-- An operation declaring a required request body. -/
def requiredBodyOperation : Operation := { requestBody := some { required := true } }

/-- Contract with POST /notes taking an optional body. -/
def optionalBodyDoc : SpecDoc :=
  { paths := [([TemplateSeg.lit (r"notes")],
      { operations := [(r"post", optionalBodyOperation)] })] }

/-- Contract with POST /notes taking a required body. -/
def requiredBodyDoc : SpecDoc :=
  { paths := [([TemplateSeg.lit (r"notes")],
      { operations := [(r"post", requiredBodyOperation)] })] }

/-- POST /notes with an absent body. -/
def emptyBodyRequest : Request := { method := "post", url := [r"notes"] }

/-- A parameterless GET /pets operation. -/
def petsOperation : Operation := {}

/-- Contract declaring GET /pets as a server path and no webhooks. -/
def petsDoc : SpecDoc :=
  { paths := [([TemplateSeg.lit (r"pets")], { operations := [(r"get", petsOperation)] })] }

/-- A standard inbound GET /pets request. -/
def petsRequest : Request := { method := "get", url := [r"pets"] }

/-- Contract whose document-level security names one apiKey scheme. -/
def apiKeyDoc : SpecDoc :=
  { security := some [[r"key"]]
    securitySchemes := [(r"key", r"apiKey")] }

/-- Document-level security with a failing first alternative and an
accepting second one. -/
def twoAltDoc : SpecDoc :=
  { security := some [[r"bad"], [r"good"]]
    securitySchemes := [(r"bad", r"rejecting"), (r"good", r"accept")] }

/-- Document-level security whose only alternative fails. -/
def oneAltDoc : SpecDoc :=
  { security := some [[r"bad"]]
    securitySchemes := [(r"bad", r"rejecting")] }

/-- Required query parameter, absent from the example request. -/
def limitParam : Param := { name := "limit", location := .query, required := true }

/-- Optional query parameter, absent from the example request. -/
def markParam : Param := { name := "mark", location := .query, required := false }

/-- Required query parameter of the partial-result example. -/
def missingReqParam : Param := { name := "a", location := .query, required := true }

/-- Optional present query parameter of the partial-result example. -/
def okParam : Param := { name := "b", location := .query, schema := "integer" }

/-- Operation declaring the two descriptors of the partial-result example. -/
def partialOperation : Operation := { parameters := [missingReqParam, okParam] }

/-- Request parameters supplying b only. -/
def partialRequestParams : RequestParameters := { query := [(r"b", r"2")] }

theorem alookup_append_single_ne {α : Type} (n m : String) (v : α) (xs : List (String × α))
    (h : m ≠ n) : alookup n (xs ++ [(m, v)]) = alookup n xs := by
  induction xs with
  | nil => simp [alookup, h]
  | cons x rest ih =>
    obtain ⟨k, w⟩ := x
    by_cases hk : k = n
    · simp [alookup, hk]
    · simp [alookup, hk, ih]

theorem alookup_append_single_self {α : Type} (n : String) (v : α) (xs : List (String × α))
    (h : alookup n xs = none) : alookup n (xs ++ [(n, v)]) = some v := by
  induction xs with
  | nil => simp [alookup]
  | cons x rest ih =>
    obtain ⟨k, w⟩ := x
    by_cases hk : k = n
    · simp [alookup, hk] at h
    · simp only [alookup, List.cons_append, if_neg hk] at h ⊢
      exact ih h

theorem Parameters.get_insert_self (ps : Parameters) (l : ParamLocation) (n : String)
    (v : Value) : (ps.insert l n v).get l = ps.get l ++ [(n, v)] := by
  cases l <;> rfl

theorem Parameters.get_insert_ne (ps : Parameters) (l l' : ParamLocation) (n : String)
    (v : Value) (h : l ≠ l') : (ps.insert l n v).get l' = ps.get l' := by
  cases l <;> cases l' <;> first | exact absurd rfl h | rfl

theorem alookup_get_insert_ne (validated : Parameters) (l : ParamLocation) (n : String)
    (p : Param) (v : Value) (hne : ¬(p.name = n ∧ p.location = l)) :
    alookup n ((validated.insert p.location p.name v).get l) = alookup n (validated.get l) := by
  by_cases hl : p.location = l
  · subst hl
    have hn : p.name ≠ n := fun hn => hne ⟨hn, rfl⟩
    rw [Parameters.get_insert_self, alookup_append_single_ne _ _ _ _ hn]
  · rw [Parameters.get_insert_ne _ _ _ _ _ hl]

theorem errorsFor_append (n : String) (l : ParamLocation) (xs ys : List OpenAPIError) :
    errorsFor n l (xs ++ ys) = errorsFor n l xs ++ errorsFor n l ys := by
  induction xs with
  | nil => rfl
  | cons e rest ih =>
    by_cases he : isParamErrorFor n l e = true
    · simp [errorsFor, he, ih]
    · simp [errorsFor, he, ih]

theorem isParamErrorFor_missingRequired_ne (n m : String) (l k : ParamLocation)
    (h : ¬(m = n ∧ k = l)) :
    isParamErrorFor n l (.missingRequiredParameter m k) = false := by
  simp [isParamErrorFor, h]

theorem isParamErrorFor_invalid_ne (n m : String) (l k : ParamLocation)
    (h : ¬(m = n ∧ k = l)) :
    isParamErrorFor n l (.invalidParameter m k) = false := by
  simp [isParamErrorFor, h]

theorem getParametersGo_errors_seen (pipe : Param → String → Except Unit Value)
    (rp : RequestParameters) (ps : List Param) (seen : List (String × ParamLocation))
    (validated : Parameters) (errors : List OpenAPIError) (n : String) (l : ParamLocation)
    (h : (n, l) ∈ seen) :
    errorsFor n l (getParametersGo pipe rp ps seen validated errors).errors
      = errorsFor n l errors := by
  induction ps generalizing seen validated errors with
  | nil => rfl
  | cons p rest ih =>
    by_cases hmem : (p.name, p.location) ∈ seen
    · simp only [getParametersGo, if_pos hmem]
      exact ih _ _ _ h
    · have hne : ¬(p.name = n ∧ p.location = l) := by
        rintro ⟨rfl, rfl⟩
        exact hmem h
      have h1 : (n, l) ∈ seen ++ [(p.name, p.location)] := List.mem_append_left _ h
      cases ho : getParameter pipe rp p with
      | missing =>
        simp only [getParametersGo, if_neg hmem, ho]
        exact ih _ _ _ h1
      | missingRequired =>
        simp only [getParametersGo, if_neg hmem, ho]
        rw [ih _ _ _ h1, errorsFor_append]
        simp [errorsFor, isParamErrorFor_missingRequired_ne n p.name l p.location hne]
      | invalid =>
        simp only [getParametersGo, if_neg hmem, ho]
        rw [ih _ _ _ h1, errorsFor_append]
        simp [errorsFor, isParamErrorFor_invalid_ne n p.name l p.location hne]
      | ok v =>
        simp only [getParametersGo, if_neg hmem, ho]
        exact ih _ _ _ h1

theorem getParametersGo_errors_not_seen (pipe : Param → String → Except Unit Value)
    (rp : RequestParameters) (ps : List Param) (seen : List (String × ParamLocation))
    (validated : Parameters) (errors : List OpenAPIError) (n : String) (l : ParamLocation)
    (h : (n, l) ∉ seen) :
    errorsFor n l (getParametersGo pipe rp ps seen validated errors).errors
      = errorsFor n l errors ++
          (match governing n l ps with
           | none => []
           | some p => outcomeErrors n l (getParameter pipe rp p)) := by
  induction ps generalizing seen validated errors with
  | nil => simp [getParametersGo, governing]
  | cons p rest ih =>
    by_cases hid : p.name = n ∧ p.location = l
    · obtain ⟨rfl, rfl⟩ := hid
      have hsub : (p.name, p.location) ∈ seen ++ [(p.name, p.location)] :=
        List.mem_append_right _ (List.mem_singleton_self _)
      cases ho : getParameter pipe rp p with
      | missing =>
        simp only [getParametersGo, if_neg h, ho]
        rw [getParametersGo_errors_seen pipe rp rest _ _ _ _ _ hsub]
        simp [governing, outcomeErrors, ho]
      | missingRequired =>
        simp only [getParametersGo, if_neg h, ho]
        rw [getParametersGo_errors_seen pipe rp rest _ _ _ _ _ hsub, errorsFor_append]
        simp [governing, outcomeErrors, errorsFor, isParamErrorFor, ho]
      | invalid =>
        simp only [getParametersGo, if_neg h, ho]
        rw [getParametersGo_errors_seen pipe rp rest _ _ _ _ _ hsub, errorsFor_append]
        simp [governing, outcomeErrors, errorsFor, isParamErrorFor, ho]
      | ok v =>
        simp only [getParametersGo, if_neg h, ho]
        rw [getParametersGo_errors_seen pipe rp rest _ _ _ _ _ hsub]
        simp [governing, outcomeErrors, ho]
    · have hgov : governing n l (p :: rest) = governing n l rest := by
        simp [governing, hid]
      by_cases hmem : (p.name, p.location) ∈ seen
      · simp only [getParametersGo, if_pos hmem]
        rw [ih _ _ _ h, hgov]
      · have hns : (n, l) ∉ seen ++ [(p.name, p.location)] := by
          intro hc
          rcases List.mem_append.mp hc with hc | hc
          · exact h hc
          · simp only [List.mem_singleton, Prod.mk.injEq] at hc
            exact hid ⟨hc.1.symm, hc.2.symm⟩
        cases ho : getParameter pipe rp p with
        | missing =>
          simp only [getParametersGo, if_neg hmem, ho]
          rw [ih _ _ _ hns, hgov]
        | missingRequired =>
          simp only [getParametersGo, if_neg hmem, ho]
          rw [ih _ _ _ hns, errorsFor_append, hgov]
          simp [errorsFor, isParamErrorFor_missingRequired_ne n p.name l p.location hid]
        | invalid =>
          simp only [getParametersGo, if_neg hmem, ho]
          rw [ih _ _ _ hns, errorsFor_append, hgov]
          simp [errorsFor, isParamErrorFor_invalid_ne n p.name l p.location hid]
        | ok v =>
          simp only [getParametersGo, if_neg hmem, ho]
          rw [ih _ _ _ hns, hgov]

theorem getParametersGo_lookup_seen (pipe : Param → String → Except Unit Value)
    (rp : RequestParameters) (ps : List Param) (seen : List (String × ParamLocation))
    (validated : Parameters) (errors : List OpenAPIError) (n : String) (l : ParamLocation)
    (h : (n, l) ∈ seen) :
    alookup n ((getParametersGo pipe rp ps seen validated errors).validated.get l)
      = alookup n (validated.get l) := by
  induction ps generalizing seen validated errors with
  | nil => rfl
  | cons p rest ih =>
    by_cases hmem : (p.name, p.location) ∈ seen
    · simp only [getParametersGo, if_pos hmem]
      exact ih _ _ _ h
    · have hne : ¬(p.name = n ∧ p.location = l) := by
        rintro ⟨rfl, rfl⟩
        exact hmem h
      have h1 : (n, l) ∈ seen ++ [(p.name, p.location)] := List.mem_append_left _ h
      cases ho : getParameter pipe rp p with
      | missing =>
        simp only [getParametersGo, if_neg hmem, ho]
        exact ih _ _ _ h1
      | missingRequired =>
        simp only [getParametersGo, if_neg hmem, ho]
        exact ih _ _ _ h1
      | invalid =>
        simp only [getParametersGo, if_neg hmem, ho]
        exact ih _ _ _ h1
      | ok v =>
        simp only [getParametersGo, if_neg hmem, ho]
        rw [ih _ _ _ h1, alookup_get_insert_ne _ _ _ _ _ hne]

theorem getParametersGo_lookup_not_seen (pipe : Param → String → Except Unit Value)
    (rp : RequestParameters) (ps : List Param) (seen : List (String × ParamLocation))
    (validated : Parameters) (errors : List OpenAPIError) (n : String) (l : ParamLocation)
    (h : (n, l) ∉ seen) (hv : alookup n (validated.get l) = none) :
    alookup n ((getParametersGo pipe rp ps seen validated errors).validated.get l)
      = (match governing n l ps with
         | none => none
         | some p => outcomeValue (getParameter pipe rp p)) := by
  induction ps generalizing seen validated errors with
  | nil => simp [getParametersGo, governing, hv]
  | cons p rest ih =>
    by_cases hid : p.name = n ∧ p.location = l
    · obtain ⟨rfl, rfl⟩ := hid
      have hsub : (p.name, p.location) ∈ seen ++ [(p.name, p.location)] :=
        List.mem_append_right _ (List.mem_singleton_self _)
      cases ho : getParameter pipe rp p with
      | missing =>
        simp only [getParametersGo, if_neg h, ho]
        rw [getParametersGo_lookup_seen pipe rp rest _ _ _ _ _ hsub, hv]
        simp [governing, outcomeValue, ho]
      | missingRequired =>
        simp only [getParametersGo, if_neg h, ho]
        rw [getParametersGo_lookup_seen pipe rp rest _ _ _ _ _ hsub, hv]
        simp [governing, outcomeValue, ho]
      | invalid =>
        simp only [getParametersGo, if_neg h, ho]
        rw [getParametersGo_lookup_seen pipe rp rest _ _ _ _ _ hsub, hv]
        simp [governing, outcomeValue, ho]
      | ok v =>
        simp only [getParametersGo, if_neg h, ho]
        rw [getParametersGo_lookup_seen pipe rp rest _ _ _ _ _ hsub,
          Parameters.get_insert_self, alookup_append_single_self _ _ _ hv]
        simp [governing, outcomeValue, ho]
    · have hgov : governing n l (p :: rest) = governing n l rest := by
        simp [governing, hid]
      by_cases hmem : (p.name, p.location) ∈ seen
      · simp only [getParametersGo, if_pos hmem]
        rw [ih _ _ _ h hv, hgov]
      · have hns : (n, l) ∉ seen ++ [(p.name, p.location)] := by
          intro hc
          rcases List.mem_append.mp hc with hc | hc
          · exact h hc
          · simp only [List.mem_singleton, Prod.mk.injEq] at hc
            exact hid ⟨hc.1.symm, hc.2.symm⟩
        cases ho : getParameter pipe rp p with
        | missing =>
          simp only [getParametersGo, if_neg hmem, ho]
          rw [ih _ _ _ hns hv, hgov]
        | missingRequired =>
          simp only [getParametersGo, if_neg hmem, ho]
          rw [ih _ _ _ hns hv, hgov]
        | invalid =>
          simp only [getParametersGo, if_neg hmem, ho]
          rw [ih _ _ _ hns hv, hgov]
        | ok v =>
          simp only [getParametersGo, if_neg hmem, ho]
          have hv1 : alookup n ((validated.insert p.location p.name v).get l) = none := by
            rw [alookup_get_insert_ne _ _ _ _ _ hid, hv]
          rw [ih _ _ _ hns hv1, hgov]

theorem mem_of_mem_errorsFor (n : String) (l : ParamLocation) (e : OpenAPIError)
    (xs : List OpenAPIError) (h : e ∈ errorsFor n l xs) : e ∈ xs := by
  induction xs with
  | nil => simp [errorsFor] at h
  | cons x rest ih =>
    by_cases hx : isParamErrorFor n l x = true
    · simp only [errorsFor, if_pos hx, List.mem_cons] at h
      rcases h with h | h
      · exact h ▸ List.mem_cons_self _ _
      · exact List.mem_cons_of_mem _ (ih h)
    · simp only [errorsFor, if_neg hx] at h
      exact List.mem_cons_of_mem _ (ih h)

theorem getSecurityGo_first_success (providerOf : String → RequestParameters → Except Unit Value)
    (doc : SpecDoc) (params : RequestParameters) (pre : List (List String)) (alt : List String)
    (post : List (List String)) (creds : List (String × Option Value))
    (attempted : List (List String))
    (hpre : ∀ a ∈ pre, trySecurityRequirement providerOf doc params a = none)
    (halt : trySecurityRequirement providerOf doc params alt = some creds) :
    getSecurityGo providerOf doc params (pre ++ alt :: post) attempted = .ok creds := by
  induction pre generalizing attempted with
  | nil => simp [getSecurityGo, halt]
  | cons a pre ih =>
    have ha := hpre a (List.mem_cons_self a pre)
    simp only [List.cons_append, getSecurityGo, ha]
    exact ih _ (fun b hb => hpre b (List.mem_cons_of_mem _ hb))

theorem getSecurityGo_all_fail (providerOf : String → RequestParameters → Except Unit Value)
    (doc : SpecDoc) (params : RequestParameters) (alts attempted : List (List String))
    (h : ∀ a ∈ alts, trySecurityRequirement providerOf doc params a = none) :
    getSecurityGo providerOf doc params alts attempted = .error (attempted ++ alts) := by
  induction alts generalizing attempted with
  | nil => simp [getSecurityGo]
  | cons a rest ih =>
    have ha := h a (List.mem_cons_self a rest)
    simp only [getSecurityGo, ha]
    rw [ih _ (fun b hb => h b (List.mem_cons_of_mem _ hb))]
    simp

/-- C1: a declared parameter descriptor that governs its (name, location)
identity and whose name is absent from requestParameters[location] yields a
MissingRequiredParameter error for that identity when required is true,
while with required false the resolution stores no entry and records no
error for that identity. -/
theorem missing_parameter_dispatch (pipe : Param → String → Except Unit Value)
    (reqParams : RequestParameters) (operationParams pathParams : List Param) (p : Param)
    (hgov : governing p.name p.location (operationParams ++ pathParams) = some p)
    (habs : alookup p.name (reqParams.get p.location) = none) :
    (p.required = true →
        OpenAPIError.missingRequiredParameter p.name p.location
          ∈ (getParameters pipe reqParams operationParams pathParams).errors)
    ∧ (p.required = false →
        errorsFor p.name p.location
            (getParameters pipe reqParams operationParams pathParams).errors = []
          ∧ alookup p.name
              ((getParameters pipe reqParams operationParams pathParams).validated.get
                p.location) = none) := by
  have hnil : ((p.name, p.location) : String × ParamLocation) ∉
      ([] : List (String × ParamLocation)) := List.not_mem_nil _
  constructor
  · intro hreq
    have hgp : getParameter pipe reqParams p = .missingRequired := by
      simp [getParameter, habs, hreq]
    have he := getParametersGo_errors_not_seen pipe reqParams
      (operationParams ++ pathParams) [] {} [] p.name p.location hnil
    rw [hgov] at he
    have he3 : errorsFor p.name p.location
        (getParametersGo pipe reqParams (operationParams ++ pathParams) [] {} []).errors
        = errorsFor p.name p.location []
            ++ outcomeErrors p.name p.location (getParameter pipe reqParams p) := he
    rw [hgp] at he3
    have he2 : errorsFor p.name p.location
        (getParameters pipe reqParams operationParams pathParams).errors
        = [OpenAPIError.missingRequiredParameter p.name p.location] := by
      simp only [getParameters]
      rw [he3]
      rfl
    exact mem_of_mem_errorsFor _ _ _ _ (by rw [he2]; exact List.mem_singleton_self _)
  · intro hreq
    have hgp : getParameter pipe reqParams p = .missing := by
      simp [getParameter, habs, hreq]
    constructor
    · have he := getParametersGo_errors_not_seen pipe reqParams
        (operationParams ++ pathParams) [] {} [] p.name p.location hnil
      rw [hgov] at he
      have he3 : errorsFor p.name p.location
          (getParametersGo pipe reqParams (operationParams ++ pathParams) [] {} []).errors
          = errorsFor p.name p.location []
              ++ outcomeErrors p.name p.location (getParameter pipe reqParams p) := he
      rw [hgp] at he3
      simp only [getParameters]
      rw [he3]
      rfl
    · have hl := getParametersGo_lookup_not_seen pipe reqParams
        (operationParams ++ pathParams) [] {} [] p.name p.location hnil
        (by cases p.location <;> rfl)
      rw [hgov] at hl
      have hl3 : alookup p.name
          ((getParametersGo pipe reqParams (operationParams ++ pathParams) []
              {} []).validated.get p.location)
          = outcomeValue (getParameter pipe reqParams p) := hl
      rw [hgp] at hl3
      simp only [getParameters]
      rw [hl3]
      rfl

/-- Witness for `missing_parameter_dispatch`: limit is required and absent,
mark is optional and absent from an empty request. -/
theorem missing_parameter_dispatch_witness :
    governing limitParam.name limitParam.location ([limitParam, markParam] ++ []) = some limitParam
    ∧ alookup limitParam.name (RequestParameters.get {} limitParam.location) = none
    ∧ limitParam.required = true
    ∧ markParam.required = false
    ∧ OpenAPIError.missingRequiredParameter limitParam.name limitParam.location
        ∈ (getParameters pipeNum {} [limitParam, markParam] []).errors
    ∧ errorsFor markParam.name markParam.location
        (getParameters pipeNum {} [limitParam, markParam] []).errors = [] :=
  ⟨by decide, by decide, by decide, by decide,
   (missing_parameter_dispatch pipeNum {} [limitParam, markParam] [] limitParam
      (by decide) (by decide)).1 (by decide),
   ((missing_parameter_dispatch pipeNum {} [limitParam, markParam] [] markParam
      (by decide) (by decide)).2 (by decide)).1⟩

/-- C2: when the parameter stage runs (security resolved), the unmarshal
result always carries the partially built ValidatedParameters of the resolution,
and an identity has an entry exactly when its governing descriptor resolved
to a value, with that value; in particular no entry exists for a parameter
whose extraction or validation failed. -/
theorem partial_parameters_invariant (pipe : Param → String → Except Unit Value)
    (convert : RequestBodySpec → String → String → Except Unit Value)
    (providerOf : String → RequestParameters → Except Unit Value)
    (doc : SpecDoc) (reqParams : RequestParameters) (body : Option String)
    (mimetype : String) (operation : Operation) (pathItem : PathItem)
    (sec : List (String × Option Value))
    (hsec : getSecurity providerOf doc reqParams operation = .ok sec) :
    ((unmarshalStage pipe convert providerOf doc reqParams body mimetype operation
        pathItem).parameters
      = some (getParameters pipe reqParams operation.parameters pathItem.parameters).validated)
    ∧ (∀ n l, alookup n
        ((getParameters pipe reqParams operation.parameters pathItem.parameters).validated.get l)
      = (match governing n l (operation.parameters ++ pathItem.parameters) with
         | none => none
         | some p => outcomeValue (getParameter pipe reqParams p))) := by
  constructor
  · simp [unmarshalStage, hsec]
  · intro n l
    simp only [getParameters]
    exact getParametersGo_lookup_not_seen pipe reqParams _ [] {} [] n l
      (List.not_mem_nil _) (by cases l <;> rfl)

/-- Witness for `partial_parameters_invariant`: parameter a is required and
missing, parameter b resolves; the result still carries the partial
ValidatedParameters. -/
theorem partial_parameters_invariant_witness :
    getSecurity providerReject emptyDoc partialRequestParams partialOperation = Except.ok []
    ∧ ((unmarshalStage pipeNum convertRaw providerReject emptyDoc partialRequestParams
          none plainRequest.mimetype partialOperation {}).parameters
        = some (getParameters pipeNum partialRequestParams partialOperation.parameters
            ({} : PathItem).parameters).validated) :=
  ⟨rfl,
   (partial_parameters_invariant pipeNum convertRaw providerReject emptyDoc
      partialRequestParams none plainRequest.mimetype partialOperation {} [] rfl).1⟩

/-- C3: concrete evaluation of the dedup example. The full pipeline lets
the operation-level integer-schema descriptor govern foo and reports an
InvalidParameter error for foo=abc, but both ParametersOnly entry points
pass the descriptor lists to `_get_parameters` in swapped order, so the
path-level string-schema descriptor governs there: no error, and the value
abc is stored. -/
theorem parametersOnly_precedence_evaluation :
    apiCallIterErrors PathFinderKind.apiCall pipeNum convertRaw providerReject
        dedupDoc dedupRequest
      = [OpenAPIError.invalidParameter (r"foo") ParamLocation.query]
    ∧ apiCallParametersIterErrors PathFinderKind.apiCall pipeNum dedupDoc dedupRequest = []
    ∧ (apiCallParametersUnmarshal PathFinderKind.apiCall pipeNum dedupDoc
        dedupRequest).parameters
      = some { query := [(r"foo", Value.vStr (r"abc"))] } := by
  refine ⟨?_, ?_, ?_⟩ <;> decide

/-- C4: concrete evaluation of the required-shadowing example. The
parameters stage of the full pipeline reports the operation-level required
parameter token as missing, while the ParametersOnly variants, through the
same swapped argument order, let the optional path-level descriptor govern
and report nothing. -/
theorem parametersOnly_full_equivalence_evaluation :
    apiCallIterErrors PathFinderKind.apiCall pipeNum convertRaw providerReject
        requiredShadowDoc requiredShadowRequest
      = [OpenAPIError.missingRequiredParameter (r"token") ParamLocation.query]
    ∧ apiCallParametersIterErrors PathFinderKind.apiCall pipeNum requiredShadowDoc
        requiredShadowRequest = []
    ∧ (apiCallParametersUnmarshal PathFinderKind.apiCall pipeNum requiredShadowDoc
        requiredShadowRequest).errors = [] := by
  refine ⟨?_, ?_, ?_⟩ <;> decide

/-- C5: a security-resolution failure is terminal. The unmarshal result
holds exactly the one security error with body, parameters and security
absent, and the validate error sequence is exactly that one error. -/
theorem security_failure_terminal (pipe : Param → String → Except Unit Value)
    (convert : RequestBodySpec → String → String → Except Unit Value)
    (providerOf : String → RequestParameters → Except Unit Value)
    (doc : SpecDoc) (reqParams : RequestParameters) (body : Option String)
    (mimetype : String) (operation : Operation) (pathItem : PathItem)
    (schemes : List (List String))
    (hsec : getSecurity providerOf doc reqParams operation = .error schemes) :
    unmarshalStage pipe convert providerOf doc reqParams body mimetype operation pathItem
      = { errors := [.securityError schemes], body := none, parameters := none,
          security := none }
    ∧ iterErrorsStage pipe convert providerOf doc reqParams body mimetype operation pathItem
      = [.securityError schemes] := by
  constructor <;> simp [unmarshalStage, iterErrorsStage, hsec]

/-- Witness for `security_failure_terminal`: a single apiKey alternative
whose provider rejects. -/
theorem security_failure_terminal_witness :
    getSecurity providerReject apiKeyDoc plainRequest.parameters petsOperation
      = Except.error [[r"key"]]
    ∧ unmarshalStage pipeNum convertRaw providerReject apiKeyDoc plainRequest.parameters
        none plainRequest.mimetype petsOperation {}
      = { errors := [OpenAPIError.securityError [[r"key"]]], body := none,
          parameters := none, security := none } :=
  ⟨rfl,
   (security_failure_terminal pipeNum convertRaw providerReject apiKeyDoc
      plainRequest.parameters none plainRequest.mimetype petsOperation {}
      [[r"key"]] rfl).1⟩

/-- C6: an unmatched method and URL is terminal. The unmarshal result holds
exactly the one PathError with every other field absent, the validate error
sequence is exactly that error, and validate raises it. -/
theorem path_error_terminal (kind : PathFinderKind)
    (pipe : Param → String → Except Unit Value)
    (convert : RequestBodySpec → String → String → Except Unit Value)
    (providerOf : String → RequestParameters → Except Unit Value)
    (doc : SpecDoc) (req : Request)
    (hpath : findPath kind doc req = .error ()) :
    apiCallUnmarshal kind pipe convert providerOf doc req
      = { errors := [.pathError], body := none, parameters := none, security := none }
    ∧ apiCallIterErrors kind pipe convert providerOf doc req = [.pathError]
    ∧ apiCallValidate kind pipe convert providerOf doc req = some .pathError := by
  refine ⟨?_, ?_, ?_⟩ <;>
    simp [apiCallUnmarshal, apiCallIterErrors, apiCallValidate, hpath]

/-- Witness for `path_error_terminal`: a contract with no paths. -/
theorem path_error_terminal_witness :
    findPath PathFinderKind.apiCall emptyDoc plainRequest = Except.error ()
    ∧ apiCallUnmarshal PathFinderKind.apiCall pipeNum convertRaw providerReject emptyDoc
        plainRequest
      = { errors := [OpenAPIError.pathError], body := none, parameters := none,
          security := none } :=
  ⟨rfl,
   (path_error_terminal PathFinderKind.apiCall pipeNum convertRaw providerReject
      emptyDoc plainRequest rfl).1⟩

/-- C7: security resolution returns an empty mapping when neither the
operation nor the document declares security; it returns the credential
mapping of the first alternative whose schemes all yield a credential,
regardless of the later alternatives; and when every alternative fails it
fails with the full list of attempted scheme-name combinations. -/
theorem security_resolution_semantics
    (providerOf : String → RequestParameters → Except Unit Value)
    (doc : SpecDoc) (params : RequestParameters) (operation : Operation) :
    ((operation.security = none ∧ doc.security = none) →
        getSecurity providerOf doc params operation = .ok [])
    ∧ (∀ pre alt post creds,
        effectiveSecurity operation doc = some (pre ++ alt :: post) →
        (∀ a ∈ pre, trySecurityRequirement providerOf doc params a = none) →
        trySecurityRequirement providerOf doc params alt = some creds →
        getSecurity providerOf doc params operation = .ok creds)
    ∧ (∀ alts, effectiveSecurity operation doc = some alts → alts ≠ [] →
        (∀ a ∈ alts, trySecurityRequirement providerOf doc params a = none) →
        getSecurity providerOf doc params operation = .error alts) := by
  refine ⟨?_, ?_, ?_⟩
  · rintro ⟨h1, h2⟩
    simp [getSecurity, effectiveSecurity, h1, h2]
  · intro pre alt post creds heff hpre halt
    obtain ⟨q, qs, hq⟩ : ∃ q qs, pre ++ alt :: post = q :: qs := by
      cases hpre2 : pre ++ alt :: post with
      | nil => cases pre <;> simp at hpre2
      | cons q qs => exact ⟨q, qs, rfl⟩
    rw [hq] at heff
    simp only [getSecurity, heff]
    rw [← hq]
    exact getSecurityGo_first_success providerOf doc params pre alt post creds [] hpre halt
  · intro alts heff hne hall
    obtain ⟨q, qs, hq⟩ : ∃ q qs, alts = q :: qs := by
      cases alts with
      | nil => exact absurd rfl hne
      | cons q qs => exact ⟨q, qs, rfl⟩
    rw [hq] at heff
    simp only [getSecurity, heff]
    rw [← hq]
    rw [getSecurityGo_all_fail providerOf doc params alts [] hall]
    rw [List.nil_append]

/-- Witness for `security_resolution_semantics`: no declared security, a
failing first alternative followed by an accepting one, and a single
failing alternative. -/
theorem security_resolution_semantics_witness :
    getSecurity providerByScheme emptyDoc plainRequest.parameters petsOperation
      = Except.ok []
    ∧ getSecurity providerByScheme twoAltDoc plainRequest.parameters petsOperation
      = Except.ok [(r"good", some (Value.vStr (r"token")))]
    ∧ getSecurity providerByScheme oneAltDoc plainRequest.parameters petsOperation
      = Except.error [[r"bad"]] :=
  ⟨(security_resolution_semantics providerByScheme emptyDoc plainRequest.parameters
      petsOperation).1 ⟨rfl, rfl⟩,
   (security_resolution_semantics providerByScheme twoAltDoc plainRequest.parameters
      petsOperation).2.1 [[r"bad"]] [r"good"] []
      [(r"good", some (Value.vStr (r"token")))] rfl (by decide) (by decide),
   (security_resolution_semantics providerByScheme oneAltDoc plainRequest.parameters
      petsOperation).2.2 [[r"bad"]] rfl (by decide) (by decide)⟩

/-- C8: concrete evaluation of the missing-body dispatch. With a required
body both modes report MissingRequiredRequestBody on an absent body. With
an optional body the unmarshal mode reports no error and no body, but the
validate mode, whose `_iter_errors` has no MissingRequestBody handler,
yields a MissingRequestBody error for the same request. -/
theorem missing_body_dispatch_evaluation :
    (apiCallUnmarshal PathFinderKind.apiCall pipeNum convertRaw providerReject
        requiredBodyDoc emptyBodyRequest).errors
      = [OpenAPIError.missingRequiredRequestBody]
    ∧ apiCallValidate PathFinderKind.apiCall pipeNum convertRaw providerReject
        requiredBodyDoc emptyBodyRequest
      = some OpenAPIError.missingRequiredRequestBody
    ∧ (apiCallUnmarshal PathFinderKind.apiCall pipeNum convertRaw providerReject
        optionalBodyDoc emptyBodyRequest).errors = []
    ∧ (apiCallUnmarshal PathFinderKind.apiCall pipeNum convertRaw providerReject
        optionalBodyDoc emptyBodyRequest).body = none
    ∧ apiCallValidate PathFinderKind.apiCall pipeNum convertRaw providerReject
        optionalBodyDoc emptyBodyRequest
      = some OpenAPIError.missingRequestBody := by
  refine ⟨?_, ?_, ?_, ?_, ?_⟩ <;> decide

/-- C9: concrete evaluation of the mode divergence. On the optional-body
request with an absent body, validate detects a MissingRequestBody error
while unmarshal collects no error at all, so the two modes differ in which
errors are detectable. -/
theorem validate_unmarshal_divergence_evaluation :
    apiCallValidate PathFinderKind.apiCall pipeNum convertRaw providerReject
        optionalBodyDoc emptyBodyRequest
      = some OpenAPIError.missingRequestBody
    ∧ (apiCallUnmarshal PathFinderKind.apiCall pipeNum convertRaw providerReject
        optionalBodyDoc emptyBodyRequest).errors = [] := by
  refine ⟨?_, ?_⟩ <;> decide

/-- C10: concrete evaluation of the path-finder selection. V31RequestValidator
and therefore V31RequestUnmarshaller carry the webhook-relative finder while
the V30 classes keep the server-relative default; on a standard request whose
URL the contract declares as a server path, the V31 full validator raises a
PathError while the server-relative finder validates it cleanly. -/
theorem apiCall_path_finder_evaluation :
    v31RequestValidatorPathFinder = PathFinderKind.webhook
    ∧ v31RequestUnmarshallerPathFinder = PathFinderKind.webhook
    ∧ v30RequestValidatorPathFinder = PathFinderKind.apiCall
    ∧ v30RequestUnmarshallerPathFinder = PathFinderKind.apiCall
    ∧ v31RequestParametersValidatorPathFinder = PathFinderKind.apiCall
    ∧ apiCallValidate v31RequestValidatorPathFinder pipeNum convertRaw providerReject
        petsDoc petsRequest
      = some OpenAPIError.pathError
    ∧ apiCallValidate v30RequestValidatorPathFinder pipeNum convertRaw providerReject
        petsDoc petsRequest = none
    ∧ (apiCallUnmarshal v31RequestUnmarshallerPathFinder pipeNum convertRaw providerReject
        petsDoc petsRequest).errors
      = [OpenAPIError.pathError] := by
  refine ⟨?_, ?_, ?_, ?_, ?_, ?_, ?_, ?_⟩ <;> decide
